import Mathlib

/-!
Shallow embedding of the per-method compilation pipeline of
`src/compiler/dex/frontend.cc` (function `CompileMethod` and the helpers it
calls), together with theorems checking the specification's claims about it.

The pure parts of the source (flag resolution, the register-map merge) are
translated directly.  The out-of-source collaborators (the MIR graph passes,
the per-target code generators, the assembler) are abstracted as function
parameters over abstract state types, typed by the contracts the spec gives
them; the orchestration logic that calls them is translated from the source
line by line.  Definitions whose defining code is not among the sources are
marked `Modelled from the spec:` in their doc comment.
-/

namespace Frontend


/-- Optimizer-disable bit positions, in the order of the
`kCompilerOptimizerDisableFlags` initializer (frontend.cc lines 74-85). -/
def kLoadStoreElimination : Nat := 0

/-- Bit position of the load-hoisting optimization. -/
def kLoadHoisting : Nat := 1

/-- Bit position of the redundant-load suppression optimization. -/
def kSuppressLoads : Nat := 2

/-- Bit position of the null-check elimination optimization. -/
def kNullCheckElimination : Nat := 3

/-- Bit position of the register-promotion optimization. -/
def kPromoteRegs : Nat := 4

/-- Bit position of the live-temp tracking optimization. -/
def kTrackLiveTemps : Nat := 5

/-- Bit position of the safe-optimizations group. -/
def kSafeOptimizations : Nat := 6

/-- Bit position of the basic-block optimization pass. -/
def kBBOpt : Nat := 7

/-- Bit position of the special-case match optimization. -/
def kMatch : Nat := 8

/-- Bit position of the compiler-temporaries promotion optimization. -/
def kPromoteCompilerTemps : Nat := 9

/-- Debug/testing bit positions, in the order of the `kCompilerDebugFlags`
initializer (frontend.cc lines 87-104). -/
def kDebugDisplayMissingTargets : Nat := 0

/-- Bit position of the verbose debug flag. -/
def kDebugVerbose : Nat := 1

/-- Bit position of the control-flow-graph dump debug flag. -/
def kDebugDumpCFG : Nat := 2

/-- Bit position of the slow-field-path debug flag. -/
def kDebugSlowFieldPath : Nat := 3

/-- Bit position of the slow-invoke-path debug flag. -/
def kDebugSlowInvokePath : Nat := 4

/-- Bit position of the slow-string-path debug flag. -/
def kDebugSlowStringPath : Nat := 5

/-- Bit position of the slowest-field-path debug flag. -/
def kDebugSlowestFieldPath : Nat := 6

/-- Bit position of the slowest-string-path debug flag. -/
def kDebugSlowestStringPath : Nat := 7

/-- Bit position of the exercise-resolve-method debug flag. -/
def kDebugExerciseResolveMethod : Nat := 8

/-- Bit position of the dataflow-verification debug flag. -/
def kDebugVerifyDataflow : Nat := 9

/-- Bit position of the memory-usage reporting debug flag. -/
def kDebugShowMemoryUsage : Nat := 10

/-- Bit position of the show-nops debug flag. -/
def kDebugShowNops : Nat := 11

/-- Bit position of the opcode-counting debug flag. -/
def kDebugCountOpcodes : Nat := 12

/-- Bit position of the check-elimination statistics dump debug flag. -/
def kDebugDumpCheckStats : Nat := 13

/-- Bit position of the bitcode-file dump debug flag. -/
def kDebugDumpBitcodeFile : Nat := 14

/-- Bit position of the bitcode-verification debug flag. -/
def kDebugVerifyBitcode : Nat := 15

/-- Default optimizer-disable mask of the source build
(frontend.cc lines 74-85: only load-store elimination is disabled). -/
def kCompilerOptimizerDisableFlags : Nat := 1 <<< kLoadStoreElimination

/-- Default debug mask of the source build
(frontend.cc lines 87-104: every debug bit is commented out). -/
def kCompilerDebugFlags : Nat := 0

/-- Fixed additional optimizer-disable bits forced for the Mips target
(frontend.cc lines 163-176). -/
def mipsDisableMask : Nat :=
  (1 <<< kLoadStoreElimination) |||
  (1 <<< kLoadHoisting) |||
  (1 <<< kSuppressLoads) |||
  (1 <<< kNullCheckElimination) |||
  (1 <<< kPromoteRegs) |||
  (1 <<< kTrackLiveTemps) |||
  (1 <<< kSafeOptimizations) |||
  (1 <<< kBBOpt) |||
  (1 <<< kMatch) |||
  (1 <<< kPromoteCompilerTemps)

/-- Fuel-indexed population count on the binary representation. -/
def popcountFuel : Nat → Nat → Nat
  | 0, _ => 0
  | _, 0 => 0
  | fuel + 1, n + 1 => popcountFuel fuel ((n + 1) / 2) + (n + 1) % 2

/-- Population count of a natural number, the embedding of
`__builtin_popcount` used by the DCHECKs at frontend.cc lines 323-324. -/
def popcount (n : Nat) : Nat := popcountFuel n n

/-- Modelled from the spec: the fixed variable-index width N used to mask
register-map keys.  The defining header is not part of the sources; the
spec fixes N = 12 ("N=12-bit mask"). -/
def VREG_NUM_WIDTH : Nat := 12

/-- Modelled from the spec: the reserved invalid-variable sentinel entry
appended as the frame marker.  The defining header is not part of the
sources; register-map entries are 16-bit, with a reserved value denoting
"no mapping", modelled here as the all-ones 16-bit value. -/
def INVALID_VREG : Nat := 0xFFFF

/-- Strip the physical-register sort key from an encoded vmap entry,
keeping the low `VREG_NUM_WIDTH` bits: the embedding of
`~(-1 << VREG_NUM_WIDTH) & entry` (frontend.cc line 317). -/
def vregMask (x : Nat) : Nat := x % 2 ^ VREG_NUM_WIDTH

/-- Ascending sort of the core vmap entries by their raw encoded key: the
embedding of the `std::sort` call at frontend.cc line 314. -/
def sortAscending (l : List Nat) : List Nat := List.insertionSort (· ≤ ·) l

/-- Merge the core and floating-point vmap tables into one table, the
embedding of frontend.cc lines 311-329: sort the core entries, push each
masked to the low variable-index bits, push the invalid-variable marker if
the frame is non-empty (otherwise DCHECK that both spill masks are empty),
then push the fp entries unchanged.  The DCHECK is active only in a debug
build and is modelled as the error case. -/
def mergeVmapTables (debugBuild : Bool)
    (frame_size core_spill_mask fp_spill_mask : Nat)
    (core_vmap fp_vmap : List Nat) : Except String (List Nat) :=
  let sorted_core := sortAscending core_vmap
  let vmap_table := sorted_core.foldl (fun acc e => acc ++ [vregMask e]) []
  if 0 < frame_size then
    Except.ok (fp_vmap.foldl (fun acc e => acc ++ [e]) (vmap_table ++ [INVALID_VREG]))
  else
    if debugBuild && !(popcount core_spill_mask == 0 && popcount fp_spill_mask == 0) then
      Except.error "DCHECK failed: non-zero spill mask with zero frame size"
    else
      Except.ok (fp_vmap.foldl (fun acc e => acc ++ [e]) vmap_table)

/-- Target instruction sets.  The DCHECK at frontend.cc lines 132-134 and
the codegen switch at lines 237-246 recognize Thumb2, X86 and Mips; the
enumeration (from the out-of-source instruction-set header) also carries
values no codegen exists for, represented here by `kNone` and `kArm`. -/
inductive InstructionSet
  | kNone
  | kArm
  | kThumb2
  | kX86
  | kMips
deriving DecidableEq

/-- Compiler backend selector (frontend.cc line 136): `kQuick` is the
direct-to-native path, `kPortable` the alternate bitcode path. -/
inductive CompilerBackend
  | kQuick
  | kPortable
deriving DecidableEq

/-- Special-case fast-path handler kinds; `kNoHandler` means no recognized
micro-pattern.  The full enumeration lives out of the sources; one other
value represents a recognized pattern, preserving the seam. -/
inductive SpecialCaseHandler
  | kNoHandler
  | kOtherHandler
deriving DecidableEq

/-- Embedding of frontend.cc lines 119-120: the special-case detection is
permanently stubbed to `kNoHandler` ("FIXME: now we detect this in
MIRGraph"). -/
def special_case : SpecialCaseHandler := SpecialCaseHandler.kNoHandler

/-- Valid target check of the DCHECK at frontend.cc lines 132-134. -/
def kIsValidIset (iset : InstructionSet) : Bool :=
  iset = InstructionSet.kThumb2 || iset = InstructionSet.kX86 || iset = InstructionSet.kMips

/-- Substring search on lists, the embedding of `std::string::find(...) !=
std::string::npos`: true when the pattern occurs contiguously. -/
def listContainsSub (s pat : List Char) : Bool :=
  match s, pat with
  | _, [] => true
  | [], _ :: _ => false
  | _ :: rest, p :: ps => (p :: ps).isPrefixOf s || listContainsSub rest (p :: ps)

/-- Substring search on strings (frontend.cc line 149). -/
def strContains (s pat : String) : Bool := listContainsSub s.toList pat.toList

/-- Per-compile flag state produced by the configuration-resolver portion
of `CompileMethod`: the `disable_opt`, `enable_debug` and `verbose` fields
of the CompilationUnit. -/
structure ResolvedFlags where
  disable_opt : Nat
  enable_debug : Nat
  verbose : Bool
deriving DecidableEq

/-- Method-name filter stage of flag resolution, the embedding of
frontend.cc lines 147-156: `matched = use_match && (flip XOR found)`; the
global default flag masks are assigned only when no filter is configured
or the filter matched, otherwise the baseline (default-constructed)
values are retained. -/
def applyMethodFilter (kDisable kDebug : Nat) (vlogOn : Bool)
    (method_match : String) (flip : Bool) (prettyName : String)
    (baseline : ResolvedFlags) : ResolvedFlags :=
  let use_match := !method_match.isEmpty
  let matched := use_match && (Bool.xor flip (strContains prettyName method_match))
  if !use_match || matched then
    { disable_opt := kDisable, enable_debug := kDebug,
      verbose := vlogOn || Nat.testBit kDebug kDebugVerbose }
  else baseline

/-- Embedding of frontend.cc lines 158-161: a debug build always verifies
bitcode, so the bitcode-verification debug bit is forced whenever bitcode
generation was requested. -/
def bitcodeForce (debugBuild gen_bitcode : Bool) (f : ResolvedFlags) : ResolvedFlags :=
  if debugBuild && gen_bitcode then
    { f with enable_debug := f.enable_debug ||| (1 <<< kDebugVerifyBitcode) }
  else f

/-- Embedding of frontend.cc lines 163-176: for the Mips target a fixed
additional set of optimizations is force-disabled, after (and regardless
of) the method-name filter stage. -/
def mipsOverride (iset : InstructionSet) (f : ResolvedFlags) : ResolvedFlags :=
  if iset = InstructionSet.kMips then
    { f with disable_opt := f.disable_opt ||| mipsDisableMask }
  else f

/-- Full flag resolution, the embedding of frontend.cc lines 146-176: the
method-name filter stage, then the debug-build forcing of the
bitcode-verification bit (lines 158-161), then the unconditional Mips
optimization-disable overrides (lines 163-176). -/
def resolveFlags (kDisable kDebug : Nat) (vlogOn : Bool)
    (method_match : String) (flip : Bool) (prettyName : String)
    (debugBuild gen_bitcode : Bool) (iset : InstructionSet)
    (baseline : ResolvedFlags) : ResolvedFlags :=
  mipsOverride iset (bitcodeForce debugBuild gen_bitcode
    (applyMethodFilter kDisable kDebug vlogOn method_match flip prettyName baseline))

/-- Per-method inputs of `CompileMethod` (code item fields and identity
fields, frontend.cc lines 106-115); the identity fields are passed through
opaquely to the IR build. -/
structure MethodInputs where
  registers_size : Nat
  insns_size_in_code_units : Nat
  access_flags : Nat
  invoke_type : Nat
  class_def_idx : Nat
  method_idx : Nat
deriving DecidableEq

/-- Modelled from the spec: the METHOD_IS_LEAF attribute bit assumed at
frontend.cc line 179; the defining header is out of the sources and the
value is immaterial to the claims. -/
def METHOD_IS_LEAF : Nat := 1

/-- Observable fields of the per-compile CompilationUnit: target and
configuration fields assigned by frontend.cc lines 129-179, and the
accumulating output fields read by the metadata assembly at lines 311-333.
The MIR graph and the lowered-instruction list are carried separately as
abstract state. -/
structure CompilationUnit where
  instruction_set : InstructionSet
  gen_bitcode : Bool
  num_dalvik_registers : Nat
  compiler_method_match : String
  compiler_flip_match : Bool
  disable_opt : Nat
  enable_debug : Nat
  verbose : Bool
  attributes : Nat
  opcode_count_enabled : Bool
  code_buffer : List Nat
  frame_size : Nat
  core_spill_mask : Nat
  fp_spill_mask : Nat
  core_vmap_table : List Nat
  fp_vmap_table : List Nat
  combined_mapping_table : List Nat
  native_gc_map : List Nat
deriving DecidableEq

/-- Modelled from the spec: the default-constructed CompilationUnit (its
constructor is out of the sources).  Accumulating output fields start
empty/zero and the flag fields start at the conservative baseline; the
configured method-name filter substring is a construction input (the
source reads `cu->compiler_method_match` but its configuration lives
outside these sources).  The target is assigned at frontend.cc line 131
immediately after construction. -/
def CompilationUnit.init (iset : InstructionSet) (methodFilter : String) :
    CompilationUnit where
  instruction_set := iset
  gen_bitcode := false
  num_dalvik_registers := 0
  compiler_method_match := methodFilter
  compiler_flip_match := false
  disable_opt := 0
  enable_debug := 0
  verbose := false
  attributes := 0
  opcode_count_enabled := false
  code_buffer := []
  frame_size := 0
  core_spill_mask := 0
  fp_spill_mask := 0
  core_vmap_table := []
  fp_vmap_table := []
  combined_mapping_table := []
  native_gc_map := []

/-- MIR-graph passes called by the orchestrator (frontend.cc lines
189-222), abstract over the graph representation `M`; their algorithms
are out-of-source collaborators.  Per the spec the debug-gated observers
(dataflow verification, check-stats dump, opcode counting) are purely
observational, so they carry no graph transformer here. -/
structure MirOps (M : Type) where
  newGraph : M
  inlineMethod : M → MethodInputs → M
  codeLayout : M → M
  ssaTransformation : M → M
  propagateConstants : M → M
  methodUseCount : M → M
  nullCheckElimination : M → M
  basicBlockCombine : M → M
  basicBlockOptimization : M → M
  buildRegLocations : M → M

/-- Backend capability provider for one instruction set (frontend.cc
lines 272-289): register-allocation initialization, simple register
allocation, the special-case fast path, and generic MIR-to-LIR lowering.
The two lowering entry points yield the (possibly absent) head of the
lowered-instruction list. -/
structure Codegen (M L : Type) where
  compilerInitRegAlloc : M → M
  simpleRegAlloc : M → M
  specialMIR2LIR : M → SpecialCaseHandler → M × Option L
  methodMIR2LIR : M → M × Option L

/-- Outputs of `AssembleLIR` (frontend.cc line 299): the code buffer,
frame size, spill masks, vmap tables, mapping table and GC map that
assembly writes into the CompilationUnit. -/
structure AsmOutput (M : Type) where
  mir : M
  code_buffer : List Nat
  frame_size : Nat
  core_spill_mask : Nat
  fp_spill_mask : Nat
  core_vmap_table : List Nat
  fp_vmap_table : List Nat
  combined_mapping_table : List Nat
  native_gc_map : List Nat

/-- Process environment of one `CompileMethod` call: the driver-provided
target, the heap-initialization result (frontend.cc line 125), the
logging switch, the method display name, the configured method filter,
and the out-of-source collaborator functions. -/
structure Env (M L : Type) where
  heapInitOk : Bool
  vlogOn : Bool
  prettyName : String
  methodFilter : String
  instruction_set : InstructionSet
  mir : MirOps M
  armCodegen : Codegen M L
  mipsCodegen : Codegen M L
  x86Codegen : Codegen M L
  methodMIR2Bitcode : M → M
  processSwitchTables : M → M
  assembleLIR : M → L → AsmOutput M

/-- Build-time configuration of the source file: the debug-build switch
(`kIsDebugBuild`), the portable-compiler build flag
(`ART_USE_PORTABLE_COMPILER`), the memory-stats build flag
(`WITH_MEMSTATS`), and the two process-wide flag-mask constants of
frontend.cc lines 74-104. -/
structure BuildConfig where
  debugBuild : Bool
  portableBuild : Bool
  memStatsBuild : Bool
  kDisableFlags : Nat
  kDebugFlags : Nat

/-- Stages and observers of one compile, in the order `CompileMethod`
invokes them; the trace of a run records which were invoked. -/
inductive Stage
  | heapInit
  | enableOpcodeCounting
  | inlineMethod
  | codeLayout
  | verifyDataflow
  | ssaTransformation
  | propagateConstants
  | methodUseCount
  | nullCheckElimination
  | basicBlockCombine
  | basicBlockOptimization
  | dumpCheckStats
  | buildRegLocations
  | methodMIR2Bitcode
  | initCodegen
  | compilerInitRegAlloc
  | simpleRegAlloc
  | specialMIR2LIR
  | methodMIR2LIR
  | processSwitchTables
  | assembleLIR
  | codegenDump
  | showOpcodeStats
  | memStats
  | arenaReset
deriving DecidableEq

/-- Output artifact (the `CompiledMethod` constructed at frontend.cc
lines 330-333). -/
structure CompiledMethod where
  instruction_set : InstructionSet
  code : List Nat
  frame_size : Nat
  core_spill_mask : Nat
  fp_spill_mask : Nat
  mapping_table : List Nat
  vmap_table : List Nat
  gc_map : List Nat
deriving DecidableEq

/-- Caller-visible outcome of `CompileMethod`: a fatal process abort
(LOG(FATAL) / failed DCHECK) or a return value, which is either an
artifact or the alternate path's null return. -/
inductive Outcome
  | fatal (msg : String)
  | done (result : Option CompiledMethod)
deriving DecidableEq

/-- Trace fragment of a debug-gated observer: present iff its gate is on. -/
def obsTrace (b : Bool) (s : Stage) : List Stage := if b then [s] else []

/-- Backend selection switch of frontend.cc lines 237-246: Thumb2, Mips
and X86 each select their codegen; any other value hits the fatal
default case. -/
def selectCodegen {M L : Type} (env : Env M L) : InstructionSet → Option (Codegen M L)
  | InstructionSet.kThumb2 => some env.armCodegen
  | InstructionSet.kMips => some env.mipsCodegen
  | InstructionSet.kX86 => some env.x86Codegen
  | _ => none

/-- MIR graph state after the front-end passes of frontend.cc lines
181-222: graph construction, IR build, code layout, SSA transformation,
constant propagation, use counting, null-check elimination, basic-block
combine, basic-block optimization, and register-location building. -/
def frontendGraph {M L : Type} (env : Env M L) (inp : MethodInputs) : M :=
  env.mir.buildRegLocations
    (env.mir.basicBlockOptimization
      (env.mir.basicBlockCombine
        (env.mir.nullCheckElimination
          (env.mir.methodUseCount
            (env.mir.propagateConstants
              (env.mir.ssaTransformation
                (env.mir.codeLayout
                  (env.mir.inlineMethod env.mir.newGraph inp))))))))

/-- Trace of the front-end stages (frontend.cc lines 117-222): opcode
counting is gated by the process-wide constant debug mask (line 184),
while dataflow verification (line 195) and the check-stats dump (line
217) are gated by the per-compile resolved debug flags. -/
def frontendTrace (kDebugFlagsConst enable_debug : Nat) : List Stage :=
  Stage.heapInit ::
    (obsTrace (Nat.testBit kDebugFlagsConst kDebugCountOpcodes) Stage.enableOpcodeCounting ++
     [Stage.inlineMethod, Stage.codeLayout] ++
     obsTrace (Nat.testBit enable_debug kDebugVerifyDataflow) Stage.verifyDataflow ++
     [Stage.ssaTransformation, Stage.propagateConstants, Stage.methodUseCount,
      Stage.nullCheckElimination, Stage.basicBlockCombine, Stage.basicBlockOptimization] ++
     obsTrace (Nat.testBit enable_debug kDebugDumpCheckStats) Stage.dumpCheckStats ++
     [Stage.buildRegLocations])

/-- Graph state reaching generic lowering on the native path: the
front-end state after register-allocation initialization and simple
register allocation (frontend.cc lines 272-275). -/
def lowerInputGraph {M L : Type} (env : Env M L) (inp : MethodInputs) (cg : Codegen M L) : M :=
  cg.simpleRegAlloc (cg.compilerInitRegAlloc (frontendGraph env inp))

/-- CompilationUnit state after the field assignments and flag resolution
of frontend.cc lines 129-184. -/
def cuOf {M L : Type} (bc : BuildConfig) (env : Env M L) (backend : CompilerBackend)
    (inp : MethodInputs) : CompilationUnit :=
  let gen_bitcode := decide (backend = CompilerBackend.kPortable)
  let cu0 := CompilationUnit.init env.instruction_set env.methodFilter
  let cu1 := { cu0 with gen_bitcode := gen_bitcode,
                        num_dalvik_registers := inp.registers_size,
                        compiler_flip_match := false }
  let rf := resolveFlags bc.kDisableFlags bc.kDebugFlags env.vlogOn cu1.compiler_method_match
              cu1.compiler_flip_match env.prettyName bc.debugBuild cu1.gen_bitcode
              cu1.instruction_set ⟨cu1.disable_opt, cu1.enable_debug, cu1.verbose⟩
  { cu1 with disable_opt := rf.disable_opt, enable_debug := rf.enable_debug,
             verbose := rf.verbose, attributes := METHOD_IS_LEAF,
             opcode_count_enabled := Nat.testBit bc.kDebugFlags kDebugCountOpcodes }

/-- Shared tail of `CompileMethod` from the opcode-stats dump through the
artifact construction and the arena reset (frontend.cc lines 307-347):
dump opcode stats when the constant debug mask says so, merge the vmap
tables (with the zero-frame DCHECK), construct the CompiledMethod, dump
memory stats when built in and enabled, and reset the arena. -/
def finishCommon (bc : BuildConfig) (cu : CompilationUnit) (tr : List Stage) :
    Outcome × List Stage :=
  let tr2 := tr ++ obsTrace (Nat.testBit bc.kDebugFlags kDebugCountOpcodes) Stage.showOpcodeStats
  match mergeVmapTables bc.debugBuild cu.frame_size cu.core_spill_mask cu.fp_spill_mask
      cu.core_vmap_table cu.fp_vmap_table with
  | Except.error m => (Outcome.fatal m, tr2)
  | Except.ok vmap =>
    (Outcome.done (some ⟨cu.instruction_set, cu.code_buffer, cu.frame_size, cu.core_spill_mask,
        cu.fp_spill_mask, cu.combined_mapping_table, vmap, cu.native_gc_map⟩),
     tr2 ++ obsTrace (bc.memStatsBuild && Nat.testBit cu.enable_debug kDebugShowMemoryUsage)
          Stage.memStats ++ [Stage.arenaReset])

/-- Non-empty-body branch and shared tail of `CompileMethod` (frontend.cc
lines 292-347): when the lowered-instruction list is non-empty, resolve
switch tables, assemble (writing the code buffer, frame size, spill masks
and tables into the CompilationUnit) and optionally dump the lowered
form; in either case fall into the common tail. -/
def finishTail {M L : Type} (bc : BuildConfig) (env : Env M L) (cu : CompilationUnit)
    (g : M) (lir : Option L) (tr : List Stage) : Outcome × List Stage :=
  match lir with
  | some l =>
    let asm := env.assembleLIR (env.processSwitchTables g) l
    let cu2 := { cu with
      code_buffer := asm.code_buffer
      frame_size := asm.frame_size
      core_spill_mask := asm.core_spill_mask
      fp_spill_mask := asm.fp_spill_mask
      core_vmap_table := asm.core_vmap_table
      fp_vmap_table := asm.fp_vmap_table
      combined_mapping_table := asm.combined_mapping_table
      native_gc_map := asm.native_gc_map }
    finishCommon bc cu2
      (tr ++ [Stage.processSwitchTables, Stage.assembleLIR] ++
        obsTrace cu.verbose Stage.codegenDump)
  | none => finishCommon bc cu tr

/-- Embedding of `CompileMethod` (frontend.cc lines 106-348).  Heap
initialization failure and the instruction-set DCHECK abort first; then
the CompilationUnit is set up and the front-end passes run; a portable
build with the portable backend takes the bitcode path and returns no
artifact after resetting the arena; otherwise the codegen switch (fatal
on an unrecognized target), register allocation, the (permanently
declined) special-case fast path, generic lowering when the list is still
empty, and the shared tail run. -/
def CompileMethod {M L : Type} (bc : BuildConfig) (env : Env M L)
    (backend : CompilerBackend) (inp : MethodInputs) : Outcome × List Stage :=
  if !env.heapInitOk then
    (Outcome.fatal "Failed to initialize compiler heap", [Stage.heapInit])
  else if bc.debugBuild && !kIsValidIset env.instruction_set then
    (Outcome.fatal "DCHECK failed: unexpected instruction set", [Stage.heapInit])
  else
    let cu := cuOf bc env backend inp
    let g := frontendGraph env inp
    let ftr := frontendTrace bc.kDebugFlags cu.enable_debug
    if bc.portableBuild && cu.gen_bitcode then
      if backend = CompilerBackend.kPortable then
        (Outcome.done none, ftr ++ [Stage.methodMIR2Bitcode, Stage.arenaReset])
      else
        finishTail bc env cu (env.methodMIR2Bitcode g) none (ftr ++ [Stage.methodMIR2Bitcode])
    else
      match selectCodegen env cu.instruction_set with
      | none => (Outcome.fatal "Unexpected instruction set", ftr)
      | some cg =>
        let g1 := lowerInputGraph env inp cg
        let sres : M × Option L × List Stage :=
          if special_case ≠ SpecialCaseHandler.kNoHandler then
            (let r := cg.specialMIR2LIR g1 special_case
             (r.1, r.2, [Stage.specialMIR2LIR]))
          else (g1, none, [])
        let lres : M × Option L × List Stage :=
          if sres.2.1.isNone then
            (let r := cg.methodMIR2LIR sres.1
             (r.1, r.2, sres.2.2 ++ [Stage.methodMIR2LIR]))
          else sres
        finishTail bc env cu lres.1 lres.2.1
          (ftr ++ [Stage.initCodegen, Stage.compilerInitRegAlloc, Stage.simpleRegAlloc] ++
            lres.2.2)

/-- True when the outcome is the binary caller-visible behavior the spec
describes for the native path: an artifact or a fatal abort. -/
def returnsArtifactOrFatal : Outcome → Bool
  | Outcome.fatal _ => true
  | Outcome.done (some _) => true
  | Outcome.done none => false

/-- Trivial MIR-pass instantiation over a unit graph, used to evaluate the
pipeline on concrete inputs. -/
def unitMirOps : MirOps Unit where
  newGraph := ()
  inlineMethod := fun _ _ => ()
  codeLayout := fun g => g
  ssaTransformation := fun g => g
  propagateConstants := fun g => g
  methodUseCount := fun g => g
  nullCheckElimination := fun g => g
  basicBlockCombine := fun g => g
  basicBlockOptimization := fun g => g
  buildRegLocations := fun g => g

/-- Codegen whose generic lowering produces no lowered instruction (a
stub/abstract/native method body). -/
def declineAllCodegen : Codegen Unit Unit where
  compilerInitRegAlloc := fun g => g
  simpleRegAlloc := fun g => g
  specialMIR2LIR := fun g _ => (g, none)
  methodMIR2LIR := fun g => (g, none)

/-- Codegen whose generic lowering produces a lowered-instruction list. -/
def produceCodegen : Codegen Unit Unit where
  compilerInitRegAlloc := fun g => g
  simpleRegAlloc := fun g => g
  specialMIR2LIR := fun g _ => (g, none)
  methodMIR2LIR := fun g => (g, some ())

/-- Concrete assembly result used by the instantiated environments. -/
def sampleAsm : AsmOutput Unit where
  mir := ()
  code_buffer := [1, 2]
  frame_size := 8
  core_spill_mask := 1
  fp_spill_mask := 0
  core_vmap_table := [0x1003, 0x1001]
  fp_vmap_table := [5]
  combined_mapping_table := [9]
  native_gc_map := [4]

/-- Environment whose backend declines to lower anything: the degenerate
empty-body compile. -/
def envEmptyBody : Env Unit Unit where
  heapInitOk := true
  vlogOn := false
  prettyName := "m"
  methodFilter := ""
  instruction_set := InstructionSet.kThumb2
  mir := unitMirOps
  armCodegen := declineAllCodegen
  mipsCodegen := declineAllCodegen
  x86Codegen := declineAllCodegen
  methodMIR2Bitcode := fun g => g
  processSwitchTables := fun g => g
  assembleLIR := fun _ _ => sampleAsm

/-- Environment whose backend lowers and assembles a non-empty body. -/
def envProduce : Env Unit Unit :=
  { envEmptyBody with
    armCodegen := produceCodegen
    mipsCodegen := produceCodegen
    x86Codegen := produceCodegen }

/-- Environment whose heap initialization fails. -/
def envHeapFail : Env Unit Unit := { envEmptyBody with heapInitOk := false }

/-- Environment whose target instruction set has no codegen. -/
def envBadIset : Env Unit Unit := { envEmptyBody with instruction_set := InstructionSet.kArm }

/-- Non-portable release build with the source's default flag masks. -/
def bcPlain : BuildConfig :=
  ⟨false, false, false, kCompilerOptimizerDisableFlags, kCompilerDebugFlags⟩

/-- Portable build with opcode counting enabled in the constant mask. -/
def bcPortable : BuildConfig :=
  ⟨false, true, false, kCompilerOptimizerDisableFlags, 1 <<< kDebugCountOpcodes⟩

/-- Non-portable build with opcode counting enabled in the constant mask. -/
def bcCount : BuildConfig :=
  ⟨false, false, false, kCompilerOptimizerDisableFlags, 1 <<< kDebugCountOpcodes⟩

/-- Sample per-method inputs. -/
def inp0 : MethodInputs := ⟨3, 5, 0, 0, 0, 0⟩

theorem foldl_push_map (f : Nat → Nat) (l acc : List Nat) :
    l.foldl (fun a e => a ++ [f e]) acc = acc ++ l.map f := by
  induction l generalizing acc with
  | nil => simp
  | cons x xs ih => simp [List.foldl_cons, ih]

theorem foldl_push_id (l acc : List Nat) :
    l.foldl (fun a e => a ++ [e]) acc = acc ++ l := by
  induction l generalizing acc with
  | nil => simp
  | cons x xs ih => simp [List.foldl_cons, ih]

theorem mergeVmapTables_ok (debugBuild : Bool)
    (frame_size core_spill_mask fp_spill_mask : Nat) (core fp : List Nat)
    (h : 0 < frame_size ∨ (popcount core_spill_mask = 0 ∧ popcount fp_spill_mask = 0) ∨
         debugBuild = false) :
    mergeVmapTables debugBuild frame_size core_spill_mask fp_spill_mask core fp =
      Except.ok ((sortAscending core).map vregMask ++
        (if 0 < frame_size then [INVALID_VREG] else []) ++ fp) := by
  unfold mergeVmapTables
  by_cases hf : 0 < frame_size
  · simp [hf, foldl_push_map, foldl_push_id]
  · rcases h with h | ⟨h1, h2⟩ | h
    · exact absurd h hf
    · simp [hf, h1, h2, foldl_push_map, foldl_push_id]
    · simp [hf, h, foldl_push_map, foldl_push_id]

/-- C1: the merged vmap table is built by sorting the core entries
ascending by their raw encoded key, appending each sorted entry masked to
its low `VREG_NUM_WIDTH` bits, appending one invalid-variable sentinel
entry exactly when the frame size is positive, then appending the
floating-point entries unchanged and in order.  (The claim's concrete
example is corrected: the sorted-and-masked core keys `[0x1003, 0x1001,
0x1002]` yield `[0x001, 0x002, 0x003]`, not `[0x003, 0x001, 0x002]`.) -/
theorem vmap_merge_construction (debugBuild : Bool)
    (frame_size core_spill_mask fp_spill_mask : Nat) (core fp : List Nat)
    (h : 0 < frame_size ∨ (popcount core_spill_mask = 0 ∧ popcount fp_spill_mask = 0) ∨
         debugBuild = false) :
    mergeVmapTables debugBuild frame_size core_spill_mask fp_spill_mask core fp =
      Except.ok ((sortAscending core).map vregMask ++
        (if 0 < frame_size then [INVALID_VREG] else []) ++ fp) ∧
    List.Sorted (· ≤ ·) (sortAscending core) ∧ List.Perm (sortAscending core) core := by
  refine ⟨mergeVmapTables_ok debugBuild frame_size core_spill_mask fp_spill_mask core fp h,
    List.sorted_insertionSort (· ≤ ·) core, List.perm_insertionSort (· ≤ ·) core⟩

/-- C1 witness: on the spec's own example (frame size 16 > 0) the merge
applies the construction and produces `[1, 2, 3, INVALID_VREG, 5, 9]`. -/
theorem vmap_merge_construction_witness :
    mergeVmapTables true 16 0 0 [0x1003, 0x1001, 0x1002] [5, 9] =
      Except.ok [0x001, 0x002, 0x003, INVALID_VREG, 5, 9] :=
  (vmap_merge_construction true 16 0 0 [0x1003, 0x1001, 0x1002] [5, 9]
      (Or.inl (by decide))).1.trans (congrArg Except.ok (by decide))

/-- C1 counterexample: the claim's concrete expected table
`[0x003, 0x001, 0x002, INVALID_VREG, 5, 9]` is not what the code produces
for core keys `[0x1003, 0x1001, 0x1002]`, fp entries `[5, 9]` and a
positive frame size: sorting ascending by the raw key and then masking
gives `[0x001, 0x002, 0x003, INVALID_VREG, 5, 9]`. -/
theorem vmap_merge_claim_example_false :
    mergeVmapTables true 16 0 0 [0x1003, 0x1001, 0x1002] [5, 9] =
      Except.ok [0x001, 0x002, 0x003, INVALID_VREG, 5, 9] ∧
    [0x001, 0x002, 0x003, INVALID_VREG, 5, 9] ≠
      [0x003, 0x001, 0x002, INVALID_VREG, 5, 9] := by
  constructor
  · rfl
  · decide

/-- C3: with a zero frame size, a non-zero population count in either
spill mask makes the metadata assembly fail the checked invariant (the
DCHECK of frontend.cc lines 323-324, active in a debug build) instead of
silently producing a table, and any successfully produced zero-frame table
consists of the masked sorted core entries followed by the fp entries with
no sentinel marker appended between them. -/
theorem zero_frame_invariant (debugBuild : Bool)
    (core_spill_mask fp_spill_mask : Nat) (core fp : List Nat) :
    ((debugBuild = true ∧ (popcount core_spill_mask ≠ 0 ∨ popcount fp_spill_mask ≠ 0)) →
      mergeVmapTables debugBuild 0 core_spill_mask fp_spill_mask core fp =
        Except.error "DCHECK failed: non-zero spill mask with zero frame size") ∧
    (∀ t, mergeVmapTables debugBuild 0 core_spill_mask fp_spill_mask core fp = Except.ok t →
      t = (sortAscending core).map vregMask ++ fp) := by
  constructor
  · rintro ⟨hd, hm⟩
    unfold mergeVmapTables
    have hcond : (popcount core_spill_mask == 0 && popcount fp_spill_mask == 0) = false := by
      rcases hm with hm | hm <;> simp [hm]
    simp [hd, hcond]
  · intro t ht
    unfold mergeVmapTables at ht
    rw [if_neg (by omega)] at ht
    split at ht
    · exact Except.noConfusion ht
    · rw [foldl_push_map, foldl_push_map] at ht
      injection ht with h
      simp at h
      exact h.symm

/-- C3 witness: a crafted zero-frame state with core spill mask 1 trips
the invariant failure, and the zero-frame merge of core table `[3]` with
fp table `[4]` is `[3, 4]`, with no sentinel. -/
theorem zero_frame_invariant_witness :
    mergeVmapTables true 0 1 0 [] [] =
      Except.error "DCHECK failed: non-zero spill mask with zero frame size" ∧
    [3, 4] = (sortAscending [3]).map vregMask ++ [4] := by
  constructor
  · exact (zero_frame_invariant true 1 0 [] []).1 ⟨rfl, Or.inl (by decide)⟩
  · exact (zero_frame_invariant true 0 0 [3] [4]).2 [3, 4] rfl

theorem testBit_lor_right (x m i : Nat) (h : Nat.testBit m i = true) :
    Nat.testBit (x ||| m) i = true := by
  rw [Nat.testBit_or, h, Bool.or_true]

theorem bitcodeForce_disable_opt (debugBuild gen_bitcode : Bool) (f : ResolvedFlags) :
    (bitcodeForce debugBuild gen_bitcode f).disable_opt = f.disable_opt := by
  unfold bitcodeForce
  split <;> rfl

/-- C5: the method-name filter stage computes
`matched = (filter found in display name) XOR invert-flag` and assigns the
override optimizer-disable and debug flag sets (and the derived verbose
bit) exactly when no filter substring is configured or `matched` is true;
with a configured filter and a false `matched`, the compile's flags retain
their baseline (default-constructed) values. -/
theorem method_filter_resolution (kDisable kDebug : Nat) (vlogOn : Bool)
    (method_match : String) (flip : Bool) (prettyName : String)
    (baseline : ResolvedFlags) :
    ((method_match.isEmpty = true ∨
        Bool.xor flip (strContains prettyName method_match) = true) →
      applyMethodFilter kDisable kDebug vlogOn method_match flip prettyName baseline =
        { disable_opt := kDisable, enable_debug := kDebug,
          verbose := vlogOn || Nat.testBit kDebug kDebugVerbose }) ∧
    ((method_match.isEmpty = false ∧
        Bool.xor flip (strContains prettyName method_match) = false) →
      applyMethodFilter kDisable kDebug vlogOn method_match flip prettyName baseline =
        baseline) := by
  constructor
  · intro h
    unfold applyMethodFilter
    rcases h with h | h
    · simp [h]
    · cases hm : method_match.isEmpty <;> simp [hm, h]
  · rintro ⟨h1, h2⟩
    unfold applyMethodFilter
    simp [h1, h2]

/-- C5 witness: a matching filter (substring "xy" of "axyb", invert
false) assigns the override sets, and a non-matching configured filter
(substring "q" of "ab") retains a distinct baseline. -/
theorem method_filter_resolution_witness :
    applyMethodFilter 1 0 false "xy" false "axyb" ⟨0, 0, false⟩ =
      { disable_opt := 1, enable_debug := 0,
        verbose := false || Nat.testBit 0 kDebugVerbose } ∧
    applyMethodFilter 1 0 false "q" false "ab" ⟨7, 8, true⟩ = ⟨7, 8, true⟩ :=
  ⟨(method_filter_resolution 1 0 false "xy" false "axyb" ⟨0, 0, false⟩).1
      (Or.inr (by decide)),
   (method_filter_resolution 1 0 false "q" false "ab" ⟨7, 8, true⟩).2
      ⟨by decide, by decide⟩⟩

/-- C6: for every compile targeting the Mips instruction set the resolved
optimization-disable flags include the whole fixed per-target override set
of bits, whatever the defaults, the method-name filter inputs, the
baseline and the build mode. -/
theorem mips_target_overrides (kDisable kDebug : Nat) (vlogOn : Bool)
    (method_match : String) (flip : Bool) (prettyName : String)
    (debugBuild gen_bitcode : Bool) (baseline : ResolvedFlags) :
    Nat.testBit (resolveFlags kDisable kDebug vlogOn method_match flip prettyName
        debugBuild gen_bitcode InstructionSet.kMips baseline).disable_opt
        kLoadStoreElimination = true ∧
    Nat.testBit (resolveFlags kDisable kDebug vlogOn method_match flip prettyName
        debugBuild gen_bitcode InstructionSet.kMips baseline).disable_opt
        kLoadHoisting = true ∧
    Nat.testBit (resolveFlags kDisable kDebug vlogOn method_match flip prettyName
        debugBuild gen_bitcode InstructionSet.kMips baseline).disable_opt
        kSuppressLoads = true ∧
    Nat.testBit (resolveFlags kDisable kDebug vlogOn method_match flip prettyName
        debugBuild gen_bitcode InstructionSet.kMips baseline).disable_opt
        kNullCheckElimination = true ∧
    Nat.testBit (resolveFlags kDisable kDebug vlogOn method_match flip prettyName
        debugBuild gen_bitcode InstructionSet.kMips baseline).disable_opt
        kPromoteRegs = true ∧
    Nat.testBit (resolveFlags kDisable kDebug vlogOn method_match flip prettyName
        debugBuild gen_bitcode InstructionSet.kMips baseline).disable_opt
        kTrackLiveTemps = true ∧
    Nat.testBit (resolveFlags kDisable kDebug vlogOn method_match flip prettyName
        debugBuild gen_bitcode InstructionSet.kMips baseline).disable_opt
        kSafeOptimizations = true ∧
    Nat.testBit (resolveFlags kDisable kDebug vlogOn method_match flip prettyName
        debugBuild gen_bitcode InstructionSet.kMips baseline).disable_opt
        kBBOpt = true ∧
    Nat.testBit (resolveFlags kDisable kDebug vlogOn method_match flip prettyName
        debugBuild gen_bitcode InstructionSet.kMips baseline).disable_opt
        kMatch = true ∧
    Nat.testBit (resolveFlags kDisable kDebug vlogOn method_match flip prettyName
        debugBuild gen_bitcode InstructionSet.kMips baseline).disable_opt
        kPromoteCompilerTemps = true := by
  unfold resolveFlags mipsOverride
  rw [if_pos rfl]
  exact ⟨testBit_lor_right _ _ _ (by decide), testBit_lor_right _ _ _ (by decide),
    testBit_lor_right _ _ _ (by decide), testBit_lor_right _ _ _ (by decide),
    testBit_lor_right _ _ _ (by decide), testBit_lor_right _ _ _ (by decide),
    testBit_lor_right _ _ _ (by decide), testBit_lor_right _ _ _ (by decide),
    testBit_lor_right _ _ _ (by decide), testBit_lor_right _ _ _ (by decide)⟩

theorem mem_obsTrace (b : Bool) (s t : Stage) : t ∈ obsTrace b s ↔ b = true ∧ t = s := by
  unfold obsTrace
  split <;> simp_all

theorem cuOf_gen_bitcode {M L : Type} (bc : BuildConfig) (env : Env M L)
    (backend : CompilerBackend) (inp : MethodInputs) :
    (cuOf bc env backend inp).gen_bitcode = decide (backend = CompilerBackend.kPortable) := rfl

theorem cuOf_instruction_set {M L : Type} (bc : BuildConfig) (env : Env M L)
    (backend : CompilerBackend) (inp : MethodInputs) :
    (cuOf bc env backend inp).instruction_set = env.instruction_set := rfl

theorem cuOf_outputs {M L : Type} (bc : BuildConfig) (env : Env M L)
    (backend : CompilerBackend) (inp : MethodInputs) :
    (cuOf bc env backend inp).code_buffer = [] ∧
    (cuOf bc env backend inp).frame_size = 0 ∧
    (cuOf bc env backend inp).core_spill_mask = 0 ∧
    (cuOf bc env backend inp).fp_spill_mask = 0 ∧
    (cuOf bc env backend inp).core_vmap_table = [] ∧
    (cuOf bc env backend inp).fp_vmap_table = [] ∧
    (cuOf bc env backend inp).combined_mapping_table = [] ∧
    (cuOf bc env backend inp).native_gc_map = [] :=
  ⟨rfl, rfl, rfl, rfl, rfl, rfl, rfl, rfl⟩

theorem selectCodegen_some_valid {M L : Type} (env : Env M L) (iset : InstructionSet)
    (cg : Codegen M L) (h : selectCodegen env iset = some cg) : kIsValidIset iset = true := by
  cases iset <;> simp_all [selectCodegen, kIsValidIset]

/-- Branch characterization: with a working heap, a recognized target and
the native path selected, `CompileMethod` resolves flags, runs the
front-end, register allocation (the special-case fast path being
permanently declined), generic lowering, and the shared tail. -/
theorem CompileMethod_native {M L : Type} (bc : BuildConfig) (env : Env M L)
    (backend : CompilerBackend) (inp : MethodInputs) (cg : Codegen M L)
    (hheap : env.heapInitOk = true)
    (hsel : selectCodegen env env.instruction_set = some cg)
    (hnp : bc.portableBuild = false ∨ backend = CompilerBackend.kQuick) :
    CompileMethod bc env backend inp =
      finishTail bc env (cuOf bc env backend inp)
        (cg.methodMIR2LIR (lowerInputGraph env inp cg)).1
        (cg.methodMIR2LIR (lowerInputGraph env inp cg)).2
        (frontendTrace bc.kDebugFlags (cuOf bc env backend inp).enable_debug ++
          [Stage.initCodegen, Stage.compilerInitRegAlloc, Stage.simpleRegAlloc] ++
          [Stage.methodMIR2LIR]) := by
  have hvalid := selectCodegen_some_valid env env.instruction_set cg hsel
  have hcond : (bc.portableBuild && (cuOf bc env backend inp).gen_bitcode) = false := by
    rcases hnp with h | h
    · rw [h, Bool.false_and]
    · rw [cuOf_gen_bitcode, h]
      simp
  unfold CompileMethod
  rw [hheap, hvalid]
  simp only [Bool.not_true, Bool.if_false_left, Bool.and_false, Bool.false_eq_true, if_false,
    Bool.and_true]
  rw [hcond]
  simp only [Bool.false_eq_true, if_false, cuOf_instruction_set, hsel, special_case]
  simp [special_case]

/-- Branch characterization: in a portable build with the portable
backend, `CompileMethod` stops after the front-end, converts to bitcode,
resets the arena and returns the null artifact (frontend.cc lines
224-233). -/
theorem CompileMethod_portable {M L : Type} (bc : BuildConfig) (env : Env M L)
    (inp : MethodInputs) (hheap : env.heapInitOk = true)
    (hvalid : kIsValidIset env.instruction_set = true)
    (hport : bc.portableBuild = true) :
    CompileMethod bc env CompilerBackend.kPortable inp =
      (Outcome.done none,
        frontendTrace bc.kDebugFlags (cuOf bc env CompilerBackend.kPortable inp).enable_debug ++
          [Stage.methodMIR2Bitcode, Stage.arenaReset]) := by
  unfold CompileMethod
  rw [hheap, hvalid]
  simp [hport, cuOf_gen_bitcode]

theorem finishCommon_binary (bc : BuildConfig) (cu : CompilationUnit) (tr : List Stage) :
    returnsArtifactOrFatal (finishCommon bc cu tr).1 = true := by
  unfold finishCommon
  split <;> rfl

theorem finishTail_binary {M L : Type} (bc : BuildConfig) (env : Env M L)
    (cu : CompilationUnit) (g : M) (lir : Option L) (tr : List Stage) :
    returnsArtifactOrFatal (finishTail bc env cu g lir tr).1 = true := by
  unfold finishTail
  cases lir
  · exact finishCommon_binary bc cu tr
  · exact finishCommon_binary bc _ _

theorem merge_zero_state : ∀ d : Bool, mergeVmapTables d 0 0 0 [] [] = Except.ok [] := by
  intro d
  unfold mergeVmapTables
  cases d <;> simp [popcount, popcountFuel, sortAscending]

/-- C2: when generic lowering leaves the lowered-instruction list empty,
switch-table resolution and assembly are never invoked, and the compile
still constructs a CompiledMethod with an empty code buffer, zero frame
size and zero spill masks. -/
theorem empty_body_invariant {M L : Type} (bc : BuildConfig) (env : Env M L)
    (inp : MethodInputs) (cg : Codegen M L)
    (hheap : env.heapInitOk = true)
    (hsel : selectCodegen env env.instruction_set = some cg)
    (hlow : (cg.methodMIR2LIR (lowerInputGraph env inp cg)).2 = none) :
    (CompileMethod bc env CompilerBackend.kQuick inp).1 =
      Outcome.done (some ⟨env.instruction_set, [], 0, 0, 0, [], [], []⟩) ∧
    Stage.processSwitchTables ∉ (CompileMethod bc env CompilerBackend.kQuick inp).2 ∧
    Stage.assembleLIR ∉ (CompileMethod bc env CompilerBackend.kQuick inp).2 := by
  have ho := cuOf_outputs bc env CompilerBackend.kQuick inp
  rw [CompileMethod_native bc env CompilerBackend.kQuick inp cg hheap hsel (Or.inr rfl), hlow]
  unfold finishTail
  simp only [finishCommon, ho.1, ho.2.1, ho.2.2.1, ho.2.2.2.1, ho.2.2.2.2.1, ho.2.2.2.2.2.1,
    ho.2.2.2.2.2.2.1, ho.2.2.2.2.2.2.2, cuOf_instruction_set, merge_zero_state]
  simp [frontendTrace, mem_obsTrace]

/-- C4: on every native-path compile the special-case fast path is never
taken (it is permanently declined), this is not an error, and the generic
MIR-to-native lowering stage is invoked. -/
theorem fast_path_fallback {M L : Type} (bc : BuildConfig) (env : Env M L)
    (backend : CompilerBackend) (inp : MethodInputs) (cg : Codegen M L)
    (hheap : env.heapInitOk = true)
    (hsel : selectCodegen env env.instruction_set = some cg)
    (hnp : bc.portableBuild = false ∨ backend = CompilerBackend.kQuick) :
    Stage.methodMIR2LIR ∈ (CompileMethod bc env backend inp).2 ∧
    Stage.specialMIR2LIR ∉ (CompileMethod bc env backend inp).2 := by
  rw [CompileMethod_native bc env backend inp cg hheap hsel hnp]
  unfold finishTail
  cases hl : (cg.methodMIR2LIR (lowerInputGraph env inp cg)).2 with
  | none =>
    simp only [finishCommon]
    split <;> simp [frontendTrace, mem_obsTrace]
  | some l =>
    simp only [finishCommon]
    split <;> simp [frontendTrace, mem_obsTrace]

/-- C7: selecting the alternate (portable/bitcode) backend in a portable
build performs only the front-end stages through register-location
building plus the bitcode conversion, releases the arena, and returns no
artifact: no codegen initialization, register allocation, lowering,
switch-table resolution or assembly happens. -/
theorem portable_path_no_artifact {M L : Type} (bc : BuildConfig) (env : Env M L)
    (inp : MethodInputs)
    (hheap : env.heapInitOk = true)
    (hvalid : kIsValidIset env.instruction_set = true)
    (hport : bc.portableBuild = true) :
    (CompileMethod bc env CompilerBackend.kPortable inp).1 = Outcome.done none ∧
    Stage.buildRegLocations ∈ (CompileMethod bc env CompilerBackend.kPortable inp).2 ∧
    Stage.methodMIR2Bitcode ∈ (CompileMethod bc env CompilerBackend.kPortable inp).2 ∧
    Stage.arenaReset ∈ (CompileMethod bc env CompilerBackend.kPortable inp).2 ∧
    Stage.initCodegen ∉ (CompileMethod bc env CompilerBackend.kPortable inp).2 ∧
    Stage.compilerInitRegAlloc ∉ (CompileMethod bc env CompilerBackend.kPortable inp).2 ∧
    Stage.simpleRegAlloc ∉ (CompileMethod bc env CompilerBackend.kPortable inp).2 ∧
    Stage.specialMIR2LIR ∉ (CompileMethod bc env CompilerBackend.kPortable inp).2 ∧
    Stage.methodMIR2LIR ∉ (CompileMethod bc env CompilerBackend.kPortable inp).2 ∧
    Stage.processSwitchTables ∉ (CompileMethod bc env CompilerBackend.kPortable inp).2 ∧
    Stage.assembleLIR ∉ (CompileMethod bc env CompilerBackend.kPortable inp).2 := by
  rw [CompileMethod_portable bc env inp hheap hvalid hport]
  simp [frontendTrace, mem_obsTrace]

/-- C8 (amended): on the direct-to-native path the caller-visible outcome
is binary - an artifact or a fatal abort; heap-initialization failure is
fatal, and an unrecognized target instruction set is fatal.  (The
alternate portable path additionally returns a null artifact, which is
neither.) -/
theorem binary_outcome {M L : Type} (bc : BuildConfig) (env : Env M L)
    (backend : CompilerBackend) (inp : MethodInputs) :
    ((backend = CompilerBackend.kQuick ∨ bc.portableBuild = false) →
      returnsArtifactOrFatal (CompileMethod bc env backend inp).1 = true) ∧
    (env.heapInitOk = false →
      (CompileMethod bc env backend inp).1 =
        Outcome.fatal "Failed to initialize compiler heap") ∧
    ((env.heapInitOk = true ∧ selectCodegen env env.instruction_set = none ∧
        (backend = CompilerBackend.kQuick ∨ bc.portableBuild = false)) →
      ∃ m, (CompileMethod bc env backend inp).1 = Outcome.fatal m) := by
  have hcond : (backend = CompilerBackend.kQuick ∨ bc.portableBuild = false) →
      (bc.portableBuild && (cuOf bc env backend inp).gen_bitcode) = false := by
    intro h
    rcases h with h | h
    · rw [cuOf_gen_bitcode, h]
      simp
    · rw [h, Bool.false_and]
  refine ⟨?_, ?_, ?_⟩
  · intro h
    unfold CompileMethod
    cases hh : env.heapInitOk
    · rfl
    · simp only [Bool.not_true, Bool.false_eq_true, if_false]
      split
      · rfl
      · rw [hcond h]
        simp only [Bool.false_eq_true, if_false, cuOf_instruction_set]
        cases hs : selectCodegen env env.instruction_set with
        | none => rfl
        | some cg => exact finishTail_binary bc env _ _ _ _
  · intro h
    unfold CompileMethod
    rw [h]
    rfl
  · rintro ⟨hh, hs, hnp⟩
    unfold CompileMethod
    rw [hh]
    simp only [Bool.not_true, Bool.false_eq_true, if_false]
    split
    · exact ⟨_, rfl⟩
    · rw [hcond hnp]
      simp only [Bool.false_eq_true, if_false, cuOf_instruction_set, hs]
      exact ⟨_, rfl⟩

/-- C8 witness: the native path yields an artifact-or-fatal outcome; a
failed heap initialization is the heap fatal; an unrecognized target is
some fatal abort. -/
theorem binary_outcome_witness :
    returnsArtifactOrFatal (CompileMethod bcPlain envProduce CompilerBackend.kQuick inp0).1 =
      true ∧
    (CompileMethod bcPlain envHeapFail CompilerBackend.kQuick inp0).1 =
      Outcome.fatal "Failed to initialize compiler heap" ∧
    (∃ m, (CompileMethod bcPlain envBadIset CompilerBackend.kQuick inp0).1 = Outcome.fatal m) :=
  ⟨(binary_outcome bcPlain envProduce CompilerBackend.kQuick inp0).1 (Or.inl rfl),
   (binary_outcome bcPlain envHeapFail CompilerBackend.kQuick inp0).2.1 rfl,
   (binary_outcome bcPlain envBadIset CompilerBackend.kQuick inp0).2.2 ⟨rfl, rfl, Or.inl rfl⟩⟩

/-- C8 counterexample: the claim's "for every input" binarity fails on the
portable path of a portable build, which returns to the caller with no
artifact and no fatal abort. -/
theorem binary_outcome_counterexample :
    returnsArtifactOrFatal
      (CompileMethod bcPortable envEmptyBody CompilerBackend.kPortable inp0).1 = false := rfl

theorem finishCommon_fst_canon (bc : BuildConfig) (cu : CompilationUnit) (tr : List Stage) :
    (finishCommon bc cu tr).1 =
      match mergeVmapTables bc.debugBuild cu.frame_size cu.core_spill_mask cu.fp_spill_mask
          cu.core_vmap_table cu.fp_vmap_table with
      | Except.error m => Outcome.fatal m
      | Except.ok vmap => Outcome.done (some ⟨cu.instruction_set, cu.code_buffer, cu.frame_size,
          cu.core_spill_mask, cu.fp_spill_mask, cu.combined_mapping_table, vmap,
          cu.native_gc_map⟩) := by
  unfold finishCommon
  cases mergeVmapTables bc.debugBuild cu.frame_size cu.core_spill_mask cu.fp_spill_mask
    cu.core_vmap_table cu.fp_vmap_table <;> rfl

theorem finishCommon_fst (b1 b2 : BuildConfig) (cu1 cu2 : CompilationUnit)
    (tr1 tr2 : List Stage)
    (hdb : b1.debugBuild = b2.debugBuild)
    (hi : cu1.instruction_set = cu2.instruction_set)
    (hcb : cu1.code_buffer = cu2.code_buffer)
    (hfs : cu1.frame_size = cu2.frame_size)
    (hcs : cu1.core_spill_mask = cu2.core_spill_mask)
    (hfps : cu1.fp_spill_mask = cu2.fp_spill_mask)
    (hcv : cu1.core_vmap_table = cu2.core_vmap_table)
    (hfv : cu1.fp_vmap_table = cu2.fp_vmap_table)
    (hmt : cu1.combined_mapping_table = cu2.combined_mapping_table)
    (hgc : cu1.native_gc_map = cu2.native_gc_map) :
    (finishCommon b1 cu1 tr1).1 = (finishCommon b2 cu2 tr2).1 := by
  rw [finishCommon_fst_canon, finishCommon_fst_canon, hdb, hi, hcb, hfs, hcs, hfps, hcv,
    hfv, hmt, hgc]

theorem finishTail_fst {M L : Type} (b1 b2 : BuildConfig) (env : Env M L)
    (cu1 cu2 : CompilationUnit) (g : M) (lir : Option L) (tr1 tr2 : List Stage)
    (hdb : b1.debugBuild = b2.debugBuild)
    (hi : cu1.instruction_set = cu2.instruction_set)
    (hcb : cu1.code_buffer = cu2.code_buffer)
    (hfs : cu1.frame_size = cu2.frame_size)
    (hcs : cu1.core_spill_mask = cu2.core_spill_mask)
    (hfps : cu1.fp_spill_mask = cu2.fp_spill_mask)
    (hcv : cu1.core_vmap_table = cu2.core_vmap_table)
    (hfv : cu1.fp_vmap_table = cu2.fp_vmap_table)
    (hmt : cu1.combined_mapping_table = cu2.combined_mapping_table)
    (hgc : cu1.native_gc_map = cu2.native_gc_map) :
    (finishTail b1 env cu1 g lir tr1).1 = (finishTail b2 env cu2 g lir tr2).1 := by
  unfold finishTail
  cases lir with
  | none => exact finishCommon_fst b1 b2 cu1 cu2 tr1 tr2 hdb hi hcb hfs hcs hfps hcv hfv hmt hgc
  | some l =>
    exact finishCommon_fst b1 b2 _ _ _ _ hdb hi rfl rfl rfl rfl rfl rfl rfl rfl

/-- Branch characterization: heap-initialization failure is fatal before
any stage runs (frontend.cc lines 125-127). -/
theorem CompileMethod_heap_fail {M L : Type} (bc : BuildConfig) (env : Env M L)
    (backend : CompilerBackend) (inp : MethodInputs) (h : env.heapInitOk = false) :
    CompileMethod bc env backend inp =
      (Outcome.fatal "Failed to initialize compiler heap", [Stage.heapInit]) := by
  unfold CompileMethod
  rw [h]
  rfl

/-- Branch characterization: in a debug build an unrecognized target trips
the DCHECK at frontend.cc lines 132-134. -/
theorem CompileMethod_dcheck_fail {M L : Type} (bc : BuildConfig) (env : Env M L)
    (backend : CompilerBackend) (inp : MethodInputs) (hheap : env.heapInitOk = true)
    (hdc : (bc.debugBuild && !kIsValidIset env.instruction_set) = true) :
    CompileMethod bc env backend inp =
      (Outcome.fatal "DCHECK failed: unexpected instruction set", [Stage.heapInit]) := by
  unfold CompileMethod
  rw [hheap, hdc]
  rfl

/-- Branch characterization: the portable path, assuming only that the
instruction-set DCHECK does not fire. -/
theorem CompileMethod_portable_any {M L : Type} (bc : BuildConfig) (env : Env M L)
    (inp : MethodInputs) (hheap : env.heapInitOk = true)
    (hdc : (bc.debugBuild && !kIsValidIset env.instruction_set) = false)
    (hport : bc.portableBuild = true) :
    CompileMethod bc env CompilerBackend.kPortable inp =
      (Outcome.done none,
        frontendTrace bc.kDebugFlags (cuOf bc env CompilerBackend.kPortable inp).enable_debug ++
          [Stage.methodMIR2Bitcode, Stage.arenaReset]) := by
  unfold CompileMethod
  rw [hheap, hdc]
  simp [hport, cuOf_gen_bitcode]

/-- Branch characterization: on the native path an unrecognized target
hits the fatal default of the codegen switch (frontend.cc lines 244-245). -/
theorem CompileMethod_nosel {M L : Type} (bc : BuildConfig) (env : Env M L)
    (backend : CompilerBackend) (inp : MethodInputs) (hheap : env.heapInitOk = true)
    (hdc : (bc.debugBuild && !kIsValidIset env.instruction_set) = false)
    (hnp : bc.portableBuild = false ∨ backend = CompilerBackend.kQuick)
    (hsel : selectCodegen env env.instruction_set = none) :
    CompileMethod bc env backend inp =
      (Outcome.fatal "Unexpected instruction set",
        frontendTrace bc.kDebugFlags (cuOf bc env backend inp).enable_debug) := by
  have hcond : (bc.portableBuild && (cuOf bc env backend inp).gen_bitcode) = false := by
    rcases hnp with h | h
    · rw [h, Bool.false_and]
    · rw [cuOf_gen_bitcode, h]
      simp
  unfold CompileMethod
  rw [hheap, hdc]
  simp only [Bool.not_true, Bool.false_eq_true, if_false]
  rw [hcond]
  simp only [Bool.false_eq_true, if_false, cuOf_instruction_set, hsel]

/-- C9: the diagnostics observers never affect the returned artifact: two
runs on the same inputs whose build configurations differ only in the
observer-gating debug bits (verbose dump, opcode counting, check-stats
dump, memory-usage dump, dataflow verification) have equal caller-visible
outcomes, in particular byte-for-byte equal CompiledMethods. -/
theorem observer_flags_no_effect {M L : Type} (b1 b2 : BuildConfig) (env : Env M L)
    (backend : CompilerBackend) (inp : MethodInputs)
    (hdb : b1.debugBuild = b2.debugBuild)
    (hpb : b1.portableBuild = b2.portableBuild)
    (hms : b1.memStatsBuild = b2.memStatsBuild)
    (hdf : b1.kDisableFlags = b2.kDisableFlags)
    (hobs : ∀ i, i ∉ [kDebugVerbose, kDebugVerifyDataflow, kDebugShowMemoryUsage,
        kDebugCountOpcodes, kDebugDumpCheckStats] →
      Nat.testBit b1.kDebugFlags i = Nat.testBit b2.kDebugFlags i) :
    (CompileMethod b1 env backend inp).1 = (CompileMethod b2 env backend inp).1 := by
  cases hh : env.heapInitOk
  · rw [CompileMethod_heap_fail b1 env backend inp hh,
      CompileMethod_heap_fail b2 env backend inp hh]
  · cases hd2 : b2.debugBuild && !kIsValidIset env.instruction_set
    · have hd1 : (b1.debugBuild && !kIsValidIset env.instruction_set) = false := by
        rw [hdb]
        exact hd2
      by_cases hport : b2.portableBuild = true ∧ backend = CompilerBackend.kPortable
      · rw [hport.2]
        rw [CompileMethod_portable_any b1 env inp hh (by rw [hdb]; exact hd2) (by rw [hpb]; exact hport.1),
          CompileMethod_portable_any b2 env inp hh hd2 hport.1]
      · have hnp : b2.portableBuild = false ∨ backend = CompilerBackend.kQuick := by
          by_cases hb : backend = CompilerBackend.kPortable
          · left
            cases hp2 : b2.portableBuild
            · rfl
            · exact absurd ⟨hp2, hb⟩ hport
          · right
            cases backend
            · rfl
            · exact absurd rfl hb
        have hnp1 : b1.portableBuild = false ∨ backend = CompilerBackend.kQuick := by
          rcases hnp with h | h
          · left
            rw [hpb]
            exact h
          · right
            exact h
        cases hs : selectCodegen env env.instruction_set with
        | none =>
          rw [CompileMethod_nosel b1 env backend inp hh hd1 hnp1 hs,
            CompileMethod_nosel b2 env backend inp hh hd2 hnp hs]
        | some cg =>
          rw [CompileMethod_native b1 env backend inp cg hh hs hnp1,
            CompileMethod_native b2 env backend inp cg hh hs hnp]
          exact finishTail_fst b1 b2 env _ _ _ _ _ _ hdb rfl rfl rfl rfl rfl rfl rfl rfl rfl
    · rw [CompileMethod_dcheck_fail b1 env backend inp hh (by rw [hdb]; exact hd2),
        CompileMethod_dcheck_fail b2 env backend inp hh hd2]

theorem testBit_shift12 (i : Nat) (h : i ≠ 12) : Nat.testBit (1 <<< 12) i = false := by
  have he : (1 <<< 12 : Nat) = 4096 := rfl
  rw [he]
  rcases Nat.lt_or_ge i 13 with hlt | hge
  · revert h
    interval_cases i <;> decide
  · apply Nat.testBit_lt_two_pow
    calc (4096 : Nat) < 2 ^ 13 := by norm_num
    _ ≤ 2 ^ i := Nat.pow_le_pow_right (by norm_num) hge

/-- C9 witness: enabling the opcode-counting observer bit in the constant
debug mask leaves the outcome of a concrete non-empty compile unchanged. -/
theorem observer_flags_no_effect_witness :
    (CompileMethod bcCount envProduce CompilerBackend.kQuick inp0).1 =
      (CompileMethod bcPlain envProduce CompilerBackend.kQuick inp0).1 :=
  observer_flags_no_effect bcCount bcPlain envProduce CompilerBackend.kQuick inp0
    rfl rfl rfl rfl
    (fun i hi => by
      have h12 : i ≠ 12 := by
        intro he
        exact hi (by rw [he]; decide)
      have hz : Nat.testBit bcPlain.kDebugFlags i = false := Nat.zero_testBit i
      rw [hz]
      exact testBit_shift12 i h12)

theorem frontendTrace_counting (k e : Nat) :
    Stage.enableOpcodeCounting ∈ frontendTrace k e ↔
      Nat.testBit k kDebugCountOpcodes = true := by
  simp [frontendTrace, mem_obsTrace]

theorem frontendTrace_no_stats (k e : Nat) : Stage.showOpcodeStats ∉ frontendTrace k e := by
  simp [frontendTrace, mem_obsTrace]

theorem finishCommon_stats (bc : BuildConfig) (cu : CompilationUnit) (tr : List Stage)
    (cm : CompiledMethod) (out : List Stage)
    (h : finishCommon bc cu tr = (Outcome.done (some cm), out)) :
    ((Stage.showOpcodeStats ∈ out) ↔ (Stage.showOpcodeStats ∈ tr ∨
        Nat.testBit bc.kDebugFlags kDebugCountOpcodes = true)) ∧
    ((Stage.enableOpcodeCounting ∈ out) ↔ Stage.enableOpcodeCounting ∈ tr) := by
  simp only [finishCommon] at h
  split at h
  · simp at h
  · simp only [Prod.mk.injEq] at h
    obtain ⟨h1, h2⟩ := h
    subst h2
    constructor
    · simp [mem_obsTrace]
    · simp [mem_obsTrace]

theorem finishTail_stats {M L : Type} (bc : BuildConfig) (env : Env M L)
    (cu : CompilationUnit) (g : M) (lir : Option L) (tr : List Stage)
    (cm : CompiledMethod) (out : List Stage)
    (h : finishTail bc env cu g lir tr = (Outcome.done (some cm), out)) :
    ((Stage.showOpcodeStats ∈ out) ↔ (Stage.showOpcodeStats ∈ tr ∨
        Nat.testBit bc.kDebugFlags kDebugCountOpcodes = true)) ∧
    ((Stage.enableOpcodeCounting ∈ out) ↔ Stage.enableOpcodeCounting ∈ tr) := by
  unfold finishTail at h
  cases lir with
  | none => exact finishCommon_stats bc cu tr cm out h
  | some l =>
    have hc := finishCommon_stats bc _ _ cm out h
    constructor
    · rw [hc.1]
      simp [mem_obsTrace]
    · rw [hc.2]
      simp [mem_obsTrace]

/-- C10 (amended): opcode-frequency counting and the post-lowering
opcode-statistics dump are both gated by the process-wide constant debug
mask having the CountOpcodes bit, not by the per-compile resolved debug
flags: on every compile that returns an artifact, each runs exactly when
that constant bit is set (so they run together), and neither the
method-name filter nor the target can change this.  On the portable
early-return path only the counting side runs. -/
theorem opcode_stats_constant_gated {M L : Type} (bc : BuildConfig) (env : Env M L)
    (backend : CompilerBackend) (inp : MethodInputs) (cm : CompiledMethod) (tr : List Stage)
    (hrun : CompileMethod bc env backend inp = (Outcome.done (some cm), tr)) :
    ((Stage.enableOpcodeCounting ∈ tr) ↔
      Nat.testBit bc.kDebugFlags kDebugCountOpcodes = true) ∧
    ((Stage.showOpcodeStats ∈ tr) ↔
      Nat.testBit bc.kDebugFlags kDebugCountOpcodes = true) := by
  cases hh : env.heapInitOk
  · rw [CompileMethod_heap_fail bc env backend inp hh] at hrun
    simp at hrun
  · cases hd : bc.debugBuild && !kIsValidIset env.instruction_set
    · by_cases hport : bc.portableBuild = true ∧ backend = CompilerBackend.kPortable
      · rw [hport.2] at hrun
        rw [CompileMethod_portable_any bc env inp hh hd hport.1] at hrun
        simp at hrun
      · have hnp : bc.portableBuild = false ∨ backend = CompilerBackend.kQuick := by
          by_cases hb : backend = CompilerBackend.kPortable
          · left
            cases hp2 : bc.portableBuild
            · rfl
            · exact absurd ⟨hp2, hb⟩ hport
          · right
            cases backend
            · rfl
            · exact absurd rfl hb
        cases hs : selectCodegen env env.instruction_set with
        | none =>
          rw [CompileMethod_nosel bc env backend inp hh hd hnp hs] at hrun
          simp at hrun
        | some cg =>
          rw [CompileMethod_native bc env backend inp cg hh hs hnp] at hrun
          have hst := finishTail_stats bc env _ _ _ _ cm tr hrun
          constructor
          · rw [hst.2]
            simp [frontendTrace_counting]
          · rw [hst.1]
            simp [mem_obsTrace, frontendTrace_no_stats]
    · rw [CompileMethod_dcheck_fail bc env backend inp hh hd] at hrun
      simp at hrun

/-- C10 witness: on a concrete artifact-producing compile with the
constant CountOpcodes bit set, both the counting enable and the stats
dump appear in the trace. -/
theorem opcode_stats_constant_gated_witness :
    ((Stage.enableOpcodeCounting ∈
        [Stage.heapInit, Stage.enableOpcodeCounting, Stage.inlineMethod, Stage.codeLayout,
         Stage.ssaTransformation, Stage.propagateConstants, Stage.methodUseCount,
         Stage.nullCheckElimination, Stage.basicBlockCombine, Stage.basicBlockOptimization,
         Stage.buildRegLocations, Stage.initCodegen, Stage.compilerInitRegAlloc,
         Stage.simpleRegAlloc, Stage.methodMIR2LIR, Stage.processSwitchTables,
         Stage.assembleLIR, Stage.showOpcodeStats, Stage.arenaReset]) ↔
      Nat.testBit bcCount.kDebugFlags kDebugCountOpcodes = true) ∧
    ((Stage.showOpcodeStats ∈
        [Stage.heapInit, Stage.enableOpcodeCounting, Stage.inlineMethod, Stage.codeLayout,
         Stage.ssaTransformation, Stage.propagateConstants, Stage.methodUseCount,
         Stage.nullCheckElimination, Stage.basicBlockCombine, Stage.basicBlockOptimization,
         Stage.buildRegLocations, Stage.initCodegen, Stage.compilerInitRegAlloc,
         Stage.simpleRegAlloc, Stage.methodMIR2LIR, Stage.processSwitchTables,
         Stage.assembleLIR, Stage.showOpcodeStats, Stage.arenaReset]) ↔
      Nat.testBit bcCount.kDebugFlags kDebugCountOpcodes = true) :=
  opcode_stats_constant_gated bcCount envProduce CompilerBackend.kQuick inp0
    ⟨InstructionSet.kThumb2, [1, 2], 8, 1, 0, [9], [1, 3, 65535, 5], [4]⟩
    [Stage.heapInit, Stage.enableOpcodeCounting, Stage.inlineMethod, Stage.codeLayout,
     Stage.ssaTransformation, Stage.propagateConstants, Stage.methodUseCount,
     Stage.nullCheckElimination, Stage.basicBlockCombine, Stage.basicBlockOptimization,
     Stage.buildRegLocations, Stage.initCodegen, Stage.compilerInitRegAlloc,
     Stage.simpleRegAlloc, Stage.methodMIR2LIR, Stage.processSwitchTables,
     Stage.assembleLIR, Stage.showOpcodeStats, Stage.arenaReset]
    (by decide)

/-- C10 counterexample: the claim's "either both run or both do not"
fails on the portable path of a portable build with the constant
CountOpcodes bit set: opcode counting is enabled before the IR build, but
the compile returns (null artifact) before the opcode-statistics dump. -/
theorem opcode_stats_portable_counterexample :
    Stage.enableOpcodeCounting ∈
      (CompileMethod bcPortable envEmptyBody CompilerBackend.kPortable inp0).2 ∧
    Stage.showOpcodeStats ∉
      (CompileMethod bcPortable envEmptyBody CompilerBackend.kPortable inp0).2 ∧
    (CompileMethod bcPortable envEmptyBody CompilerBackend.kPortable inp0).1 =
      Outcome.done none := by
  refine ⟨?_, ?_, rfl⟩ <;> decide

/-- C2 witness: a concrete compile whose backend declines to lower
anything produces the empty artifact and never reaches switch-table
resolution or assembly. -/
theorem empty_body_invariant_witness :
    (CompileMethod bcPlain envEmptyBody CompilerBackend.kQuick inp0).1 =
      Outcome.done (some ⟨InstructionSet.kThumb2, [], 0, 0, 0, [], [], []⟩) ∧
    Stage.processSwitchTables ∉
      (CompileMethod bcPlain envEmptyBody CompilerBackend.kQuick inp0).2 ∧
    Stage.assembleLIR ∉ (CompileMethod bcPlain envEmptyBody CompilerBackend.kQuick inp0).2 :=
  empty_body_invariant bcPlain envEmptyBody inp0 declineAllCodegen rfl rfl rfl

/-- C4 witness: a concrete native compile runs generic lowering and never
runs the special-case fast path. -/
theorem fast_path_fallback_witness :
    Stage.methodMIR2LIR ∈ (CompileMethod bcPlain envProduce CompilerBackend.kQuick inp0).2 ∧
    Stage.specialMIR2LIR ∉ (CompileMethod bcPlain envProduce CompilerBackend.kQuick inp0).2 :=
  fast_path_fallback bcPlain envProduce CompilerBackend.kQuick inp0 produceCodegen
    rfl rfl (Or.inl rfl)

/-- C7 witness: a concrete portable-path compile returns no artifact and
runs no native-path stage. -/
theorem portable_path_no_artifact_witness :
    (CompileMethod bcPortable envEmptyBody CompilerBackend.kPortable inp0).1 =
      Outcome.done none ∧
    Stage.buildRegLocations ∈
      (CompileMethod bcPortable envEmptyBody CompilerBackend.kPortable inp0).2 ∧
    Stage.methodMIR2Bitcode ∈
      (CompileMethod bcPortable envEmptyBody CompilerBackend.kPortable inp0).2 ∧
    Stage.arenaReset ∈
      (CompileMethod bcPortable envEmptyBody CompilerBackend.kPortable inp0).2 ∧
    Stage.initCodegen ∉
      (CompileMethod bcPortable envEmptyBody CompilerBackend.kPortable inp0).2 ∧
    Stage.compilerInitRegAlloc ∉
      (CompileMethod bcPortable envEmptyBody CompilerBackend.kPortable inp0).2 ∧
    Stage.simpleRegAlloc ∉
      (CompileMethod bcPortable envEmptyBody CompilerBackend.kPortable inp0).2 ∧
    Stage.specialMIR2LIR ∉
      (CompileMethod bcPortable envEmptyBody CompilerBackend.kPortable inp0).2 ∧
    Stage.methodMIR2LIR ∉
      (CompileMethod bcPortable envEmptyBody CompilerBackend.kPortable inp0).2 ∧
    Stage.processSwitchTables ∉
      (CompileMethod bcPortable envEmptyBody CompilerBackend.kPortable inp0).2 ∧
    Stage.assembleLIR ∉
      (CompileMethod bcPortable envEmptyBody CompilerBackend.kPortable inp0).2 :=
  portable_path_no_artifact bcPortable envEmptyBody inp0 rfl rfl rfl

